import Mathlib

/-!
# VoxelConeTracing: leaf-write pass set-up and KoRE scene loader

A shallow embedding of

* `VoxelConeTracing/Octree Mipmap/WriteLeafNodesPass.cpp` (the constructor of
  `WriteLeafNodesPass`, which records the GL operations of the pass), and
* `KoRE/Loader/SceneLoader.cpp` (`loadScene`, `loadRessources`,
  `loadSceneGraph`, `glmMatFromAiMat`, `getCameraName`, `getLightName`,
  `loadMaterialProperties`).

Pointers to heap objects are indices into an explicit store, `new` appends to
the store, and the singletons (`ResourceManager`, `SceneManager`, `Log`) are
fields of the loader state that is passed along.  The scalar type `F` stands
for `float`: the functions embedded here copy scalars, and the few floating
point operations of `loadRessources` are parameters (`FloatOps`).
-/

set_option autoImplicit false

namespace VCT

/-! ## OpenGL enumerants used by the two files (values of the OpenGL registry) -/

abbrev GLenum := Nat
abbrev GLuint := Nat
abbrev GLbitfield := Nat

def GL_POINTS : GLenum := 0x0000
def GL_INT : GLenum := 0x1404
def GL_FLOAT : GLenum := 0x1406
def GL_FLOAT_VEC3 : GLenum := 0x8B51
def GL_VERTEX_SHADER : GLenum := 0x8B31
def GL_DRAW_INDIRECT_BUFFER : GLenum := 0x8F3F
def GL_ALL_BARRIER_BITS : GLbitfield := 0xFFFFFFFF

/-! ## WriteLeafNodesPass.cpp -/

/-- A `kore::ShaderData*`: the address of a shader-data record owned by the scene. -/
structure ShaderData where
  addr : Nat
  deriving DecidableEq, Repr

/-- A `kore::ShaderInput`: one uniform of a linked shader program. -/
structure ShaderInput where
  name : String
  location : Nat
  deriving DecidableEq, Repr

/-- The voxel-fragment attributes named in the source. -/
inductive EVoxelAttributes where
  | VOXELATT_POSITION
  | VOXELATT_COLOR
  deriving DecidableEq, Repr

/-- The node-pool attributes named in the source. -/
inductive ENodePoolAttributes where
  | NEXT
  | COLOR
  deriving DecidableEq, Repr

/-- A GL buffer object wrapper, of which the pass reads `getBufferHandle()`. -/
structure IndexedBuffer where
  bufferHandle : GLuint
  deriving DecidableEq, Repr

/-- The part of `VoxelFragList` the pass reads: the indirect command buffer
(`getFragListIndCmdBuf()`) and the per-attribute shader data
(`getShdVoxelFragList`). -/
structure VoxelFragList where
  fragListIndCmdBuf : IndexedBuffer
  shdVoxelFragList : EVoxelAttributes → ShaderData

/-- The part of `NodePool` the pass reads. -/
structure NodePool where
  shdNumLevels : ShaderData
  shdNodePool : ENodePoolAttributes → ShaderData

/-- The part of `VCTscene` the pass reads. -/
structure VCTscene where
  voxelFragList : VoxelFragList
  nodePool : NodePool
  shdVoxelGridResolution : ShaderData

/-- The `kore` operations the constructor instantiates, with their
constructor arguments. `getUniform` may return a null pointer, hence the
`Option`. -/
inductive Operation where
  | BindBuffer (target : GLenum) (handle : GLuint)
  | BindUniform (data : ShaderData) (input : Option ShaderInput)
  | BindImageTexture (data : ShaderData) (input : Option ShaderInput)
  | DrawIndirectOp (mode : GLenum) (offset : Nat)
  | MemoryBarrierOp (bits : GLbitfield)
  deriving DecidableEq, Repr

/-- A `kore::ShaderProgram`: its name, the shader files loaded into it, and
after `init` the uniforms the linker reports. -/
structure ShaderProgram where
  name : String
  shaders : List (String × GLenum)
  uniforms : List ShaderInput

/-- The default-constructed shader program (`new kore::ShaderProgram`). -/
def ShaderProgram.new : ShaderProgram := ⟨"", [], []⟩

def ShaderProgram.setName (shp : ShaderProgram) (n : String) : ShaderProgram :=
  { shp with name := n }

def ShaderProgram.loadShader (shp : ShaderProgram) (file : String) (type : GLenum) :
    ShaderProgram :=
  { shp with shaders := shp.shaders ++ [(file, type)] }

/-- The call `shp->init()`: the uniforms are whatever the GL linker reports for the loaded
shader files; the linker is the parameter `link`. -/
def ShaderProgram.init (link : List (String × GLenum) → List ShaderInput)
    (shp : ShaderProgram) : ShaderProgram :=
  { shp with uniforms := link shp.shaders }

/-- The call `shp->getUniform(name)`: the uniform of that name, or null. -/
def ShaderProgram.getUniform (shp : ShaderProgram) (n : String) : Option ShaderInput :=
  shp.uniforms.find? (fun u => u.name == n)

/-- The state of the base class `kore::ShaderProgramPass` that the constructor
touches. `EOperationExecutionType` is a C enum, kept as its integer value. -/
structure ShaderProgramPass where
  executionType : Nat
  shaderProgram : Option ShaderProgram
  startupOperations : List Operation
  finishOperations : List Operation

/-- A `WriteLeafNodesPass` object: the base-class state and `_vctScene`. -/
structure WriteLeafNodesPass extends ShaderProgramPass where
  vctScene : Option VCTscene

/-- The object before the constructor body runs: the base class is default
constructed, its operation vectors are empty. -/
def WriteLeafNodesPass.blank : WriteLeafNodesPass :=
  { executionType := 0, shaderProgram := none, startupOperations := [],
    finishOperations := [], vctScene := none }

def WriteLeafNodesPass.setExecutionType (p : WriteLeafNodesPass) (t : Nat) :
    WriteLeafNodesPass :=
  { p with executionType := t }

def WriteLeafNodesPass.setShaderProgram (p : WriteLeafNodesPass) (shp : ShaderProgram) :
    WriteLeafNodesPass :=
  { p with shaderProgram := some shp }

/-- The call `addStartupOperation(op)`: `push_back` on the startup vector. -/
def WriteLeafNodesPass.addStartupOperation (p : WriteLeafNodesPass) (op : Operation) :
    WriteLeafNodesPass :=
  { p with startupOperations := p.startupOperations ++ [op] }

/-- The call `addFinishOperation(op)`: `push_back` on the finish vector. -/
def WriteLeafNodesPass.addFinishOperation (p : WriteLeafNodesPass) (op : Operation) :
    WriteLeafNodesPass :=
  { p with finishOperations := p.finishOperations ++ [op] }

/-- The constructor `WriteLeafNodesPass::WriteLeafNodesPass(vctScene, executionType)`,
statement by statement. The pass holds the shader program by pointer, so after
`init` it holds the named, loaded and initialised program. -/
def WriteLeafNodesPass.new (link : List (String × GLenum) → List ShaderInput)
    (vctScene : VCTscene) (executionType : Nat) : WriteLeafNodesPass :=
  let this := WriteLeafNodesPass.blank
  let this := this.setExecutionType executionType
  let this := { this with vctScene := some vctScene }
  let shp := ShaderProgram.new
  let this := this.setShaderProgram shp
  let shp := shp.setName "OctreeWrite shader"
  let shp := shp.loadShader "./assets/shader/OctreeWriteLeafs.shader" GL_VERTEX_SHADER
  let shp := shp.init link
  let this := { this with shaderProgram := some shp }
  let this := this.addStartupOperation
    (Operation.BindBuffer GL_DRAW_INDIRECT_BUFFER
      vctScene.voxelFragList.fragListIndCmdBuf.bufferHandle)
  let this := this.addStartupOperation
    (Operation.BindUniform vctScene.nodePool.shdNumLevels (shp.getUniform "numLevels"))
  let this := this.addStartupOperation
    (Operation.BindImageTexture
      (vctScene.voxelFragList.shdVoxelFragList EVoxelAttributes.VOXELATT_POSITION)
      (shp.getUniform "voxelFragList_pos"))
  let this := this.addStartupOperation
    (Operation.BindImageTexture
      (vctScene.voxelFragList.shdVoxelFragList EVoxelAttributes.VOXELATT_COLOR)
      (shp.getUniform "voxelFragList_color"))
  let this := this.addStartupOperation
    (Operation.BindImageTexture (vctScene.nodePool.shdNodePool ENodePoolAttributes.NEXT)
      (shp.getUniform "nodePool_next"))
  let this := this.addStartupOperation
    (Operation.BindImageTexture (vctScene.nodePool.shdNodePool ENodePoolAttributes.COLOR)
      (shp.getUniform "nodePool_color"))
  let this := this.addStartupOperation
    (Operation.BindUniform vctScene.shdVoxelGridResolution
      (shp.getUniform "voxelGridResolution"))
  let this := this.addStartupOperation (Operation.DrawIndirectOp GL_POINTS 0)
  this.addFinishOperation (Operation.MemoryBarrierOp GL_ALL_BARRIER_BITS)

/-- Modelled from the spec: the operation sequence of a pass is its startup
operations followed by its finish operations (the render manager that runs
them is not part of the two source files). -/
def WriteLeafNodesPass.operations (p : WriteLeafNodesPass) : List Operation :=
  p.startupOperations ++ p.finishOperations

def Operation.isDraw : Operation → Bool
  | .DrawIndirectOp _ _ => true
  | _ => false

def Operation.isMemoryBarrier : Operation → Bool
  | .MemoryBarrierOp _ => true
  | _ => false

/-- A uniform or image binding. -/
def Operation.isShaderBinding : Operation → Bool
  | .BindUniform _ _ => true
  | .BindImageTexture _ _ => true
  | _ => false

/-- A buffer bind or a uniform/image binding. -/
def Operation.isBinding : Operation → Bool
  | .BindBuffer _ _ => true
  | o => o.isShaderBinding

/-! ## SceneLoader.cpp: matrices -/

/-- Assimp's `aiMatrix4x4`: sixteen members, letter = row, digit = column. -/
structure aiMatrix4x4 (F : Type) where
  a1 : F
  a2 : F
  a3 : F
  a4 : F
  b1 : F
  b2 : F
  b3 : F
  b4 : F
  c1 : F
  c2 : F
  c3 : F
  c4 : F
  d1 : F
  d2 : F
  d3 : F
  d4 : F
  deriving DecidableEq, Repr

/-- The element of an `aiMatrix4x4` at row `i`, column `j`. -/
def aiMatrix4x4.get {F : Type} (M : aiMatrix4x4 F) : Fin 4 → Fin 4 → F
  | 0, 0 => M.a1 | 0, 1 => M.a2 | 0, 2 => M.a3 | 0, 3 => M.a4
  | 1, 0 => M.b1 | 1, 1 => M.b2 | 1, 2 => M.b3 | 1, 3 => M.b4
  | 2, 0 => M.c1 | 2, 1 => M.c2 | 2, 2 => M.c3 | 2, 3 => M.c4
  | 3, 0 => M.d1 | 3, 1 => M.d2 | 3, 2 => M.d3 | 3, 3 => M.d4

/-- The default-constructed `aiMatrix4x4`, the identity. -/
def aiMatrix4x4.identity {F : Type} [Zero F] [One F] : aiMatrix4x4 F :=
  ⟨1, 0, 0, 0,  0, 1, 0, 0,  0, 0, 1, 0,  0, 0, 0, 1⟩

/-- A `glm::vec4`. -/
structure vec4 (F : Type) where
  x : F
  y : F
  z : F
  w : F
  deriving DecidableEq, Repr

def vec4.get {F : Type} (v : vec4 F) : Fin 4 → F
  | 0 => v.x | 1 => v.y | 2 => v.z | 3 => v.w

/-- A `glm::mat4`: four column vectors (`value[4]`). -/
structure mat4 (F : Type) where
  col0 : vec4 F
  col1 : vec4 F
  col2 : vec4 F
  col3 : vec4 F
  deriving DecidableEq, Repr

/-- The indexing `m[j]` of glm: the `j`-th column. -/
def mat4.col {F : Type} (m : mat4 F) : Fin 4 → vec4 F
  | 0 => m.col0 | 1 => m.col1 | 2 => m.col2 | 3 => m.col3

/-- The sixteen-scalar constructor of `glm::mat4`: the arguments fill the
columns one after the other. -/
def mat4.ofScalars {F : Type} (x0 y0 z0 w0 x1 y1 z1 w1 x2 y2 z2 w2 x3 y3 z3 w3 : F) :
    mat4 F :=
  ⟨⟨x0, y0, z0, w0⟩, ⟨x1, y1, z1, w1⟩, ⟨x2, y2, z2, w2⟩, ⟨x3, y3, z3, w3⟩⟩

/-- The identity `glm::mat4(1.0f)`. -/
def mat4.identity {F : Type} [Zero F] [One F] : mat4 F :=
  ⟨⟨1, 0, 0, 0⟩, ⟨0, 1, 0, 0⟩, ⟨0, 0, 1, 0⟩, ⟨0, 0, 0, 1⟩⟩

/-- The function `SceneLoader::glmMatFromAiMat`. -/
def glmMatFromAiMat {F : Type} (aiMat : aiMatrix4x4 F) : mat4 F :=
  mat4.ofScalars aiMat.a1 aiMat.b1 aiMat.c1 aiMat.d1
                 aiMat.a2 aiMat.b2 aiMat.c2 aiMat.d2
                 aiMat.a3 aiMat.b3 aiMat.c3 aiMat.d3
                 aiMat.a4 aiMat.b4 aiMat.c4 aiMat.d4

/-! ## SceneLoader.cpp: the Assimp scene -/

/-- Assimp's `aiColor3D`. -/
structure aiColor3D (F : Type) where
  r : F
  g : F
  b : F
  deriving DecidableEq, Repr

/-- The part of `aiCamera` the loader reads. `mName` is the C string of the
`aiString`; its length is `mName.length`. -/
structure aiCamera (F : Type) where
  mName : String
  mHorizontalFOV : F
  mAspect : F
  mClipPlaneNear : F
  mClipPlaneFar : F

/-- The part of `aiLight` the loader reads. -/
structure aiLight (F : Type) where
  mName : String
  mColorDiffuse : aiColor3D F

/-- The part of `aiMesh` the loader reads. -/
structure aiMesh where
  mName : String
  mMaterialIndex : Nat
  deriving DecidableEq, Repr, Inhabited

/-- The thirteen `AI_MATKEY_*` keys queried by `loadMaterialProperties`. -/
inductive MatKey where
  | COLOR_DIFFUSE
  | COLOR_SPECULAR
  | COLOR_AMBIENT
  | COLOR_EMISSIVE
  | COLOR_TRANSPARENT
  | COLOR_REFLECTIVE
  | ENABLE_WIREFRAME
  | TWOSIDED
  | OPACITY
  | SHININESS
  | SHININESS_STRENGTH
  | REFRACTI
  | BUMPSCALING
  deriving DecidableEq, Repr

/-- An `aiMaterial`, seen through the three overloads of `aiMaterial::Get` the
loader calls: `some v` stands for `AI_SUCCESS` with `v` stored in the output
argument, `none` for any other return value. -/
structure aiMaterial (F : Type) where
  GetColor : MatKey → Option (aiColor3D F)
  GetInt : MatKey → Option Int
  GetFloat : MatKey → Option F

instance {F : Type} : Inhabited (aiMaterial F) :=
  ⟨⟨fun _ => none, fun _ => none, fun _ => none⟩⟩

/-- An `aiNode`: name, transformation, mesh indices (`mMeshes`, of length
`mNumMeshes`) and children (`mChildren`, of length `mNumChildren`). -/
structure aiNode (F : Type) where
  mName : String
  mTransformation : aiMatrix4x4 F
  mMeshes : List Nat
  mChildren : List (aiNode F)

/-- An `aiScene`. -/
structure aiScene (F : Type) where
  mRootNode : aiNode F
  mMeshes : List aiMesh
  mMaterials : List (aiMaterial F)
  mCameras : List (aiCamera F)
  mLights : List (aiLight F)

/-! ## SceneLoader.cpp: the kore scene -/

/-- A `glm::vec3`. -/
structure vec3 (F : Type) where
  x : F
  y : F
  z : F
  deriving DecidableEq, Repr

/-- The floating point operations and constants `loadRessources` applies. -/
structure FloatOps (F : Type) where
  degrees : F → F
  div : F → F → F
  length : vec3 F → F
  normalize : vec3 F → vec3 F
  zero : F
  ten : F

/-- The value behind the `void*` handed to `Material::addValue`. -/
inductive MaterialValue (F : Type) where
  | ofVec3 (v : vec3 F)
  | ofInt (i : Int)
  | ofFloat (f : F)
  deriving DecidableEq, Repr

/-- One named key/type/value triple of a kore `Material`. -/
structure MaterialEntry (F : Type) where
  name : String
  type : GLenum
  data : MaterialValue F
  deriving DecidableEq, Repr

/-- A kore `Material` component: its list of values. -/
structure Material (F : Type) where
  values : List (MaterialEntry F)
  deriving DecidableEq, Repr

/-- The object made by `new Material`. -/
def Material.new {F : Type} : Material F := ⟨[]⟩

/-- The call `koreMat->addValue(name, type, pValue)`: one more triple at the end. -/
def Material.addValue {F : Type} (m : Material F) (name : String) (type : GLenum)
    (v : MaterialValue F) : Material F :=
  ⟨m.values ++ [⟨name, type, v⟩]⟩

/-- A kore `Mesh` held by the resource manager. -/
structure Mesh where
  name : String
  sceneIndex : Nat
  deriving DecidableEq, Repr

/-- A kore `MeshComponent`; `mesh` is the pointer given to `setMesh`, possibly null. -/
structure MeshComponent where
  mesh : Option Mesh
  deriving DecidableEq, Repr

/-- A kore `Camera` after `setName` and `setProjectionPersp`. -/
structure Camera (F : Type) where
  name : String
  yFovDeg : F
  aspect : F
  near : F
  far : F
  deriving DecidableEq, Repr

/-- A kore `LightComponent`. -/
structure LightComponent (F : Type) where
  name : String
  _color : vec3 F
  _intensity : F
  _falloffStart : F
  _falloffEnd : F
  deriving DecidableEq, Repr

/-- What `SceneNode::addComponent` can be handed by the loader. -/
inductive SceneNodeComponent (F : Type) where
  | light (l : LightComponent F)
  | camera (c : Camera F)
  | mesh (m : MeshComponent)
  | material (m : Material F)
  deriving DecidableEq, Repr

def SceneNodeComponent.isMesh {F : Type} : SceneNodeComponent F → Bool
  | .mesh _ => true
  | _ => false

def SceneNodeComponent.isMaterial {F : Type} : SceneNodeComponent F → Bool
  | .material _ => true
  | _ => false

/-- A kore `Transform`, of which the loader sets the local matrix. -/
structure Transform (F : Type) where
  localMat : mat4 F
  deriving DecidableEq, Repr

def Transform.setLocal {F : Type} (_t : Transform F) (m : mat4 F) : Transform F :=
  ⟨m⟩

/-- A kore `SceneNode`. Pointers to scene nodes are addresses in the store of
the loader state; `none` is the null pointer. -/
structure SceneNode (F : Type) where
  _name : String
  _transform : Transform F
  _parent : Option Nat
  _dirty : Bool
  _children : List Nat
  _components : List (SceneNodeComponent F)
  deriving DecidableEq, Repr

/-- The object made by `new SceneNode`: no name, identity transform, no parent,
no children, no components. -/
def SceneNode.new {F : Type} [Zero F] [One F] : SceneNode F :=
  { _name := "", _transform := ⟨mat4.identity⟩, _parent := none, _dirty := true,
    _children := [], _components := [] }

/-- The entries written to the `Log` singleton. -/
inductive LogEntry where
  | errorNotLoaded (szScenePath : String)
  | debugLoaded (szScenePath : String) (meshes cameras nodes : Nat)
  | warnCameraWithoutName
  | warnLightWithoutName
  deriving DecidableEq, Repr

/-- Everything the loader reads and writes: the store of scene nodes (with
the next free address), the meshes of the `ResourceManager`, the cameras and
lights of the `SceneManager` (each filed under a scene path), the counters of
the `SceneLoader` and the log. -/
structure LoaderState (F : Type) where
  store : Nat → SceneNode F
  storeSize : Nat
  meshes : List (String × Mesh)
  cameras : List (String × Camera F)
  lights : List (String × LightComponent F)
  _nodecount : Nat
  _cameracount : Nat
  _meshcount : Nat
  _lightcount : Nat
  log : List LogEntry

section Loader

variable {F : Type}

/-- The statement `new SceneNode`: the object is placed at the next free address,
`st.storeSize`, which is the pointer the expression yields. -/
def LoaderState.newSceneNode [Zero F] [One F] (st : LoaderState F) : LoaderState F :=
  { st with store := Function.update st.store st.storeSize SceneNode.new,
            storeSize := st.storeSize + 1 }

/-- An assignment through a `SceneNode*`. -/
def LoaderState.modifyNode (st : LoaderState F) (p : Nat) (f : SceneNode F → SceneNode F) :
    LoaderState F :=
  { st with store := Function.update st.store p (f (st.store p)) }

/-- The call `p->addComponent(c)`: the component joins the node's component list. -/
def LoaderState.addComponent (st : LoaderState F) (p : Nat) (c : SceneNodeComponent F) :
    LoaderState F :=
  st.modifyNode p (fun n => { n with _components := n._components ++ [c] })

def LoaderState.write (st : LoaderState F) (e : LogEntry) : LoaderState F :=
  { st with log := st.log ++ [e] }

/-- The call `ResourceManager::addMesh(path, mesh)`. -/
def LoaderState.addMesh (st : LoaderState F) (path : String) (m : Mesh) : LoaderState F :=
  { st with meshes := st.meshes ++ [(path, m)] }

/-- The call `ResourceManager::getMesh(path, name)`: the mesh of that name filed under
the path, or null. -/
def LoaderState.getMesh (st : LoaderState F) (path name : String) : Option Mesh :=
  (st.meshes.find? (fun e => e.1 == path && e.2.name == name)).map Prod.snd

def LoaderState.addCamera (st : LoaderState F) (path : String) (c : Camera F) :
    LoaderState F :=
  { st with cameras := st.cameras ++ [(path, c)] }

def LoaderState.getCamera (st : LoaderState F) (path name : String) : Option (Camera F) :=
  (st.cameras.find? (fun e => e.1 == path && e.2.name == name)).map Prod.snd

def LoaderState.addLight (st : LoaderState F) (path : String) (l : LightComponent F) :
    LoaderState F :=
  { st with lights := st.lights ++ [(path, l)] }

def LoaderState.getLight (st : LoaderState F) (path name : String) :
    Option (LightComponent F) :=
  (st.lights.find? (fun e => e.1 == path && e.2.name == name)).map Prod.snd

/-- The text `sprintf` writes for `"%i"` and an unsigned 32-bit argument. -/
def sprintf_i (u : Nat) : String :=
  if u % 2 ^ 32 < 2 ^ 31 then toString (u % 2 ^ 32)
  else toString ((u % 2 ^ 32 : Nat) - (2 ^ 32 : Int))

/-- The function `SceneLoader::getCameraName`. -/
def getCameraName (paiCamera : aiCamera F) (uSceneCameraIdx : Nat) (st : LoaderState F) :
    String × LoaderState F :=
  if paiCamera.mName.length > 0 then (paiCamera.mName, st)
  else (sprintf_i uSceneCameraIdx, st.write LogEntry.warnCameraWithoutName)

/-- The function `SceneLoader::getLightName`. -/
def getLightName (pAiLight : aiLight F) (uSceneLightIndex : Nat) (st : LoaderState F) :
    String × LoaderState F :=
  if pAiLight.mName.length > 0 then (pAiLight.mName, st)
  else (sprintf_i uSceneLightIndex, st.write LogEntry.warnLightWithoutName)

/-- The function `SceneLoader::loadMaterialProperties`: thirteen queries, in the
order of the source, each followed by `addValue` when it succeeds. -/
def loadMaterialProperties (koreMat : Material F) (aiMat : aiMaterial F) : Material F :=
  let koreMat := match aiMat.GetColor MatKey.COLOR_DIFFUSE with
    | some c => koreMat.addValue "Diffuse Color" GL_FLOAT_VEC3 (.ofVec3 ⟨c.r, c.g, c.b⟩)
    | none => koreMat
  let koreMat := match aiMat.GetColor MatKey.COLOR_SPECULAR with
    | some c => koreMat.addValue "Specular Color" GL_FLOAT_VEC3 (.ofVec3 ⟨c.r, c.g, c.b⟩)
    | none => koreMat
  let koreMat := match aiMat.GetColor MatKey.COLOR_AMBIENT with
    | some c => koreMat.addValue "Ambient Color" GL_FLOAT_VEC3 (.ofVec3 ⟨c.r, c.g, c.b⟩)
    | none => koreMat
  let koreMat := match aiMat.GetColor MatKey.COLOR_EMISSIVE with
    | some c => koreMat.addValue "Emissive Color" GL_FLOAT_VEC3 (.ofVec3 ⟨c.r, c.g, c.b⟩)
    | none => koreMat
  let koreMat := match aiMat.GetColor MatKey.COLOR_TRANSPARENT with
    | some c => koreMat.addValue "Transparent Color" GL_FLOAT_VEC3 (.ofVec3 ⟨c.r, c.g, c.b⟩)
    | none => koreMat
  let koreMat := match aiMat.GetColor MatKey.COLOR_REFLECTIVE with
    | some c => koreMat.addValue "Reflective Color" GL_FLOAT_VEC3 (.ofVec3 ⟨c.r, c.g, c.b⟩)
    | none => koreMat
  let koreMat := match aiMat.GetInt MatKey.ENABLE_WIREFRAME with
    | some i => koreMat.addValue "Enable Wireframe" GL_INT (.ofInt i)
    | none => koreMat
  let koreMat := match aiMat.GetInt MatKey.TWOSIDED with
    | some i => koreMat.addValue "Twosided" GL_INT (.ofInt i)
    | none => koreMat
  let koreMat := match aiMat.GetFloat MatKey.OPACITY with
    | some f => koreMat.addValue "Opacity" GL_FLOAT (.ofFloat f)
    | none => koreMat
  let koreMat := match aiMat.GetFloat MatKey.SHININESS with
    | some f => koreMat.addValue "Shininess" GL_FLOAT (.ofFloat f)
    | none => koreMat
  let koreMat := match aiMat.GetFloat MatKey.SHININESS_STRENGTH with
    | some f => koreMat.addValue "Shininess-Strength" GL_FLOAT (.ofFloat f)
    | none => koreMat
  let koreMat := match aiMat.GetFloat MatKey.REFRACTI with
    | some f => koreMat.addValue "Refraction index" GL_FLOAT (.ofFloat f)
    | none => koreMat
  let koreMat := match aiMat.GetFloat MatKey.BUMPSCALING with
    | some f => koreMat.addValue "Bump strength" GL_FLOAT (.ofFloat f)
    | none => koreMat
  koreMat

/-- The post-processing flags of both `ReadFile` calls:
`aiProcess_JoinIdenticalVertices | aiProcess_Triangulate | aiProcess_CalcTangentSpace`. -/
def readFlags : Nat := 0x2 ||| 0x8 ||| 0x1

/-- The Assimp importer `_aiImporter`: `ReadFile` yields the scene of a file, or null.
The file does not change between the two reads of one `loadScene` call. -/
structure Importer (F : Type) where
  ReadFile : String → Nat → Option (aiScene F)

/-- The two functions of the `MeshLoader` singleton the scene loader calls. -/
structure MeshLoader (F : Type) where
  loadMesh : aiScene F → Nat → Mesh
  getMeshName : aiMesh → Nat → String

/-- The first element satisfying `p`, with its index: the search loops
`for (i = 0; i < n; ++i) if (...) { index = i; break; }`. -/
def findFirst {α : Type} (xs : List α) (p : α → Bool) : Option (Nat × α) :=
  xs.enum.find? (fun e => p e.2)

/-- The function `SceneLoader::loadRessources`. -/
def loadRessources (ops : FloatOps F) (imp : Importer F) (ml : MeshLoader F)
    (szScenePath : String) (st : LoaderState F) : LoaderState F :=
  match imp.ReadFile szScenePath readFlags with
  | none => st.write (LogEntry.errorNotLoaded szScenePath)
  | some pAiScene =>
    let st :=
      if pAiScene.mMeshes.length > 0 then
        (List.range pAiScene.mMeshes.length).foldl
          (fun st i =>
            let st := st.addMesh szScenePath (ml.loadMesh pAiScene i)
            { st with _meshcount := st._meshcount + 1 }) st
      else st
    let st :=
      if pAiScene.mCameras.length > 0 then
        pAiScene.mCameras.enum.foldl
          (fun st e =>
            let pAiCamera := e.2
            let r := getCameraName pAiCamera e.1 st
            let yFovDeg := ops.div (ops.degrees pAiCamera.mHorizontalFOV) pAiCamera.mAspect
            let pCamera : Camera F :=
              ⟨r.1, yFovDeg, pAiCamera.mAspect, pAiCamera.mClipPlaneNear,
                pAiCamera.mClipPlaneFar⟩
            let st := r.2.addCamera szScenePath pCamera
            { st with _cameracount := st._cameracount + 1 }) st
      else st
    let st :=
      if pAiScene.mLights.length > 0 then
        pAiScene.mLights.enum.foldl
          (fun st e =>
            let pAiLight := e.2
            let r := getLightName pAiLight e.1 st
            let color : vec3 F :=
              ⟨pAiLight.mColorDiffuse.r, pAiLight.mColorDiffuse.g, pAiLight.mColorDiffuse.b⟩
            let pLight : LightComponent F :=
              ⟨r.1, ops.normalize color, ops.length color, ops.zero, ops.ten⟩
            let st := r.2.addLight szScenePath pLight
            { st with _lightcount := st._lightcount + 1 }) st
      else st
    st

/-- The body of the loop over the second and further meshes of a node in
`loadSceneGraph`, for the mesh index `meshIdx = ainode->mMeshes[iMesh]`. -/
def loadMeshCopy [Zero F] [One F] (ml : MeshLoader F) (aiscene : aiScene F)
    (szScenePath : String) (ainode : aiNode F) (parentNode node : Nat)
    (st : LoaderState F) (meshIdx : Nat) : LoaderState F :=
  let copyNode := st.storeSize
  let st := st.newSceneNode
  let st := st.modifyNode copyNode (fun n =>
    { n with _transform := n._transform.setLocal (glmMatFromAiMat ainode.mTransformation) })
  let st := st.modifyNode copyNode (fun n => { n with _parent := some parentNode })
  let st := st.modifyNode copyNode (fun n => { n with _dirty := true })
  let st := st.modifyNode parentNode (fun n => { n with _children := n._children ++ [copyNode] })
  let aimesh := aiscene.mMeshes.getD meshIdx default
  let meshName := ml.getMeshName aimesh meshIdx
  let mesh := st.getMesh szScenePath meshName
  let meshComponent : MeshComponent := ⟨mesh⟩
  let st := st.addComponent copyNode (SceneNodeComponent.mesh meshComponent)
  let materialComponent :=
    loadMaterialProperties Material.new (aiscene.mMaterials.getD aimesh.mMaterialIndex default)
  st.addComponent node (SceneNodeComponent.material materialComponent)

/-- The first block of `SceneLoader::loadSceneGraph`: `new SceneNode`, its transform,
parent, dirty flag and name, the `push_back` on the parent's children, and
`_nodecount++`. The new node is at the address `st.storeSize`. -/
def createNode [Zero F] [One F] (ainode : aiNode F) (parentNode : Nat) (st : LoaderState F) :
    LoaderState F :=
  let node := st.storeSize
  let st := st.newSceneNode
  let st := st.modifyNode node (fun n =>
    { n with _transform := n._transform.setLocal (glmMatFromAiMat ainode.mTransformation) })
  let st := st.modifyNode node (fun n => { n with _parent := some parentNode })
  let st := st.modifyNode node (fun n => { n with _dirty := true })
  let st := st.modifyNode node (fun n => { n with _name := ainode.mName })
  let st := st.modifyNode parentNode (fun n => { n with _children := n._children ++ [node] })
  { st with _nodecount := st._nodecount + 1 }

/-- The block "Load light if this node has one" of `loadSceneGraph`. -/
def loadLight (aiscene : aiScene F) (szScenePath : String) (node : Nat) (st : LoaderState F) :
    LoaderState F :=
  match findFirst aiscene.mLights (fun l => l.mName == (st.store node)._name) with
  | some (lightIndex, pAiLight) =>
    let r := getLightName pAiLight lightIndex st
    match r.2.getLight szScenePath r.1 with
    | some pLight => r.2.addComponent node (SceneNodeComponent.light pLight)
    | none => r.2
  | none => st

/-- The block "Determine if this node has a camera" of `loadSceneGraph`. -/
def loadCamera (aiscene : aiScene F) (szScenePath : String) (node : Nat) (st : LoaderState F) :
    LoaderState F :=
  match findFirst aiscene.mCameras (fun c => c.mName == (st.store node)._name) with
  | some (camIndex, pAiCam) =>
    let r := getCameraName pAiCam camIndex st
    match r.2.getCamera szScenePath r.1 with
    | some pCamera => r.2.addComponent node (SceneNodeComponent.camera pCamera)
    | none => r.2
  | none => st

/-- The block `if (ainode->mNumMeshes > 0)` of `loadSceneGraph`: the first mesh and
its material go to `node`, then the loop over the further meshes runs. -/
def loadMeshes [Zero F] [One F] (ml : MeshLoader F) (aiscene : aiScene F)
    (szScenePath : String) (ainode : aiNode F) (parentNode node : Nat)
    (st : LoaderState F) : LoaderState F :=
  match ainode.mMeshes with
  | [] => st
  | mesh0 :: further =>
    let aimesh := aiscene.mMeshes.getD mesh0 default
    let meshName := ml.getMeshName aimesh mesh0
    let mesh := st.getMesh szScenePath meshName
    let meshComponent : MeshComponent := ⟨mesh⟩
    let st := st.addComponent node (SceneNodeComponent.mesh meshComponent)
    let materialComponent :=
      loadMaterialProperties Material.new
        (aiscene.mMaterials.getD aimesh.mMaterialIndex default)
    let st := st.addComponent node (SceneNodeComponent.material materialComponent)
    further.foldl (loadMeshCopy ml aiscene szScenePath ainode parentNode node) st

/-- The part of `SceneLoader::loadSceneGraph` before the loop over the
children, block by block. The new node is at the address `st.storeSize`. -/
def loadSceneGraphNode [Zero F] [One F] (ml : MeshLoader F) (aiscene : aiScene F)
    (szScenePath : String) (ainode : aiNode F) (parentNode : Nat) (st : LoaderState F) :
    LoaderState F :=
  let node := st.storeSize
  let st := createNode ainode parentNode st
  let st := loadLight aiscene szScenePath node st
  let st := loadCamera aiscene szScenePath node st
  loadMeshes ml aiscene szScenePath ainode parentNode node st

mutual
/-- The function `SceneLoader::loadSceneGraph`: the node itself, then the
recursion over `ainode->mChildren` with the new node as parent. -/
def loadSceneGraph [Zero F] [One F] (ml : MeshLoader F) (aiscene : aiScene F)
    (szScenePath : String) : aiNode F → Nat → LoaderState F → LoaderState F
  | ⟨mName, mTransformation, mMeshes, mChildren⟩, parentNode, st =>
    loadChildren ml aiscene szScenePath mChildren st.storeSize
      (loadSceneGraphNode ml aiscene szScenePath
        ⟨mName, mTransformation, mMeshes, mChildren⟩ parentNode st)
/-- The loop `for (iChild = 0; iChild < mNumChildren; ++iChild)` of `loadSceneGraph`. -/
def loadChildren [Zero F] [One F] (ml : MeshLoader F) (aiscene : aiScene F)
    (szScenePath : String) : List (aiNode F) → Nat → LoaderState F → LoaderState F
  | [], _, st => st
  | child :: rest, node, st =>
    loadChildren ml aiscene szScenePath rest node
      (loadSceneGraph ml aiscene szScenePath child node st)
end

/-- The function `SceneLoader::loadScene`. -/
def loadScene [Zero F] [One F] (ops : FloatOps F) (imp : Importer F) (ml : MeshLoader F)
    (szScenePath : String) (parent : Nat) (st : LoaderState F) : LoaderState F :=
  let st := { st with _nodecount := 0, _cameracount := 0, _meshcount := 0 }
  let st := loadRessources ops imp ml szScenePath st
  match imp.ReadFile szScenePath readFlags with
  | none => st.write (LogEntry.errorNotLoaded szScenePath)
  | some pAiScene =>
    let st := loadSceneGraph ml pAiScene szScenePath pAiScene.mRootNode parent st
    st.write (LogEntry.debugLoaded szScenePath st._meshcount st._cameracount st._nodecount)

/-! ## Predicates and tables the statements are phrased with -/

/-- The `glm::vec3(colValue.r, colValue.g, colValue.b)` of a colour: the same r, g, b. -/
def colourValue (c : aiColor3D F) : MaterialValue F :=
  MaterialValue.ofVec3 ⟨c.r, c.g, c.b⟩

/-- The thirteen supported properties in their fixed order, as a table: name,
GL type, and the value the Assimp material has for it, if any. -/
def supportedProperties (aiMat : aiMaterial F) :
    List (String × GLenum × Option (MaterialValue F)) :=
  [ ("Diffuse Color", GL_FLOAT_VEC3, (aiMat.GetColor MatKey.COLOR_DIFFUSE).map colourValue),
    ("Specular Color", GL_FLOAT_VEC3, (aiMat.GetColor MatKey.COLOR_SPECULAR).map colourValue),
    ("Ambient Color", GL_FLOAT_VEC3, (aiMat.GetColor MatKey.COLOR_AMBIENT).map colourValue),
    ("Emissive Color", GL_FLOAT_VEC3, (aiMat.GetColor MatKey.COLOR_EMISSIVE).map colourValue),
    ("Transparent Color", GL_FLOAT_VEC3,
      (aiMat.GetColor MatKey.COLOR_TRANSPARENT).map colourValue),
    ("Reflective Color", GL_FLOAT_VEC3,
      (aiMat.GetColor MatKey.COLOR_REFLECTIVE).map colourValue),
    ("Enable Wireframe", GL_INT, (aiMat.GetInt MatKey.ENABLE_WIREFRAME).map MaterialValue.ofInt),
    ("Twosided", GL_INT, (aiMat.GetInt MatKey.TWOSIDED).map MaterialValue.ofInt),
    ("Opacity", GL_FLOAT, (aiMat.GetFloat MatKey.OPACITY).map MaterialValue.ofFloat),
    ("Shininess", GL_FLOAT, (aiMat.GetFloat MatKey.SHININESS).map MaterialValue.ofFloat),
    ("Shininess-Strength", GL_FLOAT,
      (aiMat.GetFloat MatKey.SHININESS_STRENGTH).map MaterialValue.ofFloat),
    ("Refraction index", GL_FLOAT, (aiMat.GetFloat MatKey.REFRACTI).map MaterialValue.ofFloat),
    ("Bump strength", GL_FLOAT, (aiMat.GetFloat MatKey.BUMPSCALING).map MaterialValue.ofFloat) ]

/-- The names of the thirteen supported properties, in their fixed order. -/
def supportedNames : List String :=
  [ "Diffuse Color", "Specular Color", "Ambient Color", "Emissive Color", "Transparent Color",
    "Reflective Color", "Enable Wireframe", "Twosided", "Opacity", "Shininess",
    "Shininess-Strength", "Refraction index", "Bump strength" ]

/-- The triple of a table row, when the material has the property. -/
def toEntry (row : String × GLenum × Option (MaterialValue F)) : Option (MaterialEntry F) :=
  row.2.2.map (fun d => ⟨row.1, row.2.1, d⟩)

/-- The triples the kore material is to receive: one for each table row whose
property the Assimp material has, in table order. -/
def expectedEntries (aiMat : aiMaterial F) : List (MaterialEntry F) :=
  (supportedProperties aiMat).filterMap toEntry

mutual
/-- No node of the tree references more than one mesh. -/
def aiNode.atMostOneMesh : aiNode F → Bool
  | ⟨_, _, mMeshes, mChildren⟩ => decide (mMeshes.length ≤ 1) && atMostOneMeshList mChildren
/-- No node of the trees of the list references more than one mesh. -/
def atMostOneMeshList : List (aiNode F) → Bool
  | [] => true
  | c :: cs => c.atMostOneMesh && atMostOneMeshList cs
end

mutual
/-- The scene node at address `node` mirrors the Assimp tree `ainode` below the
parent `parentNode`: it was created at an address in `[lo, hi)`, carries the
Assimp node's name, has `glmMatFromAiMat` of its transformation as local
transform, has `_parent = parentNode`, and its `_children` mirror the Assimp
children one by one, in order, with `node` as their parent. -/
def Mirrors (store : Nat → SceneNode F) (lo hi : Nat) : aiNode F → Nat → Nat → Prop
  | ⟨mName, mTransformation, _, mChildren⟩, node, parentNode =>
    lo ≤ node ∧ node < hi ∧
    (store node)._name = mName ∧
    (store node)._transform.localMat = glmMatFromAiMat mTransformation ∧
    (store node)._parent = some parentNode ∧
    MirrorsChildren store lo hi mChildren (store node)._children node
/-- The addresses `ids` mirror the Assimp trees `cs`, pairwise and in order, below `p`. -/
def MirrorsChildren (store : Nat → SceneNode F) (lo hi : Nat) :
    List (aiNode F) → List Nat → Nat → Prop
  | [], [], _ => True
  | c :: cs, i :: ids, p => Mirrors store lo hi c i p ∧ MirrorsChildren store lo hi cs ids p
  | _, _, _ => False
end

/-- The state `st2` differs from `st` at most in the component list of `node`,
in the counters and in the log. -/
def ComponentsOnly (node : Nat) (st st2 : LoaderState F) : Prop :=
  st2.storeSize = st.storeSize ∧
  ∃ cs, st2.store = Function.update st.store node { st.store node with _components := cs }

end Loader

/-! ## Concrete inputs (scalars are integers here) -/

def demoOps : FloatOps Int :=
  ⟨id, fun a b => a / b, fun v => v.x + v.y + v.z, id, 0, 10⟩

def demoMeshLoader : MeshLoader Int :=
  ⟨fun _ i => ⟨sprintf_i i, i⟩, fun _ i => sprintf_i i⟩

/-- A material that has a diffuse colour and an opacity only. -/
def demoMaterial0 : aiMaterial Int :=
  ⟨fun k => if k = MatKey.COLOR_DIFFUSE then some ⟨1, 2, 3⟩ else none,
   fun _ => none,
   fun k => if k = MatKey.OPACITY then some 7 else none⟩

/-- A material that has only the two-sided flag. -/
def demoMaterial1 : aiMaterial Int :=
  ⟨fun _ => none, fun k => if k = MatKey.TWOSIDED then some 1 else none, fun _ => none⟩

/-- A scene whose root node references two meshes, with different materials. -/
def twoMeshScene : aiScene Int :=
  { mRootNode := ⟨"root", aiMatrix4x4.identity, [0, 1], []⟩,
    mMeshes := [⟨"m0", 0⟩, ⟨"m1", 1⟩],
    mMaterials := [demoMaterial0, demoMaterial1],
    mCameras := [], mLights := [] }

/-- A tree of three nodes, none with more than one mesh. -/
def smallTree : aiNode Int :=
  ⟨"root", aiMatrix4x4.identity, [0],
    [⟨"left", ⟨1, 0, 0, 5, 0, 1, 0, 6, 0, 0, 1, 7, 0, 0, 0, 1⟩, [], []⟩,
     ⟨"right", aiMatrix4x4.identity, [1], []⟩]⟩

def smallScene : aiScene Int :=
  { mRootNode := smallTree,
    mMeshes := [⟨"m0", 0⟩, ⟨"m1", 1⟩],
    mMaterials := [demoMaterial0, demoMaterial1],
    mCameras := [], mLights := [] }

/-- An importer that knows two files and cannot read any other. -/
def demoImporter : Importer Int :=
  ⟨fun path _ =>
    if path = "two.dae" then some twoMeshScene
    else if path = "small.dae" then some smallScene
    else none⟩

/-- A state with one scene node, the root of the scene graph at address 0, and
counters left over from an earlier load. -/
def demoState : LoaderState Int :=
  { store := fun _ => SceneNode.new, storeSize := 1, meshes := [], cameras := [], lights := [],
    _nodecount := 5, _cameracount := 5, _meshcount := 5, _lightcount := 0, log := [] }

/-! ## WriteLeafNodesPass: the recorded operations -/

/-- C1: the finish operations of a constructed `WriteLeafNodesPass` are exactly one
memory barrier with all barrier bits set (`GL_ALL_BARRIER_BITS`, all 32 bits), and
the operation sequence of the pass ends with the indirect draw directly followed
by that barrier: the barrier comes strictly after the draw, nothing follows it,
and no other draw or barrier occurs before. -/
theorem WriteLeafNodesPass_finish_is_full_barrier
    (link : List (String × GLenum) → List ShaderInput) (vctScene : VCTscene)
    (executionType : Nat) :
    (WriteLeafNodesPass.new link vctScene executionType).finishOperations
        = [Operation.MemoryBarrierOp GL_ALL_BARRIER_BITS]
    ∧ GL_ALL_BARRIER_BITS = 2 ^ 32 - 1
    ∧ (∀ i : Fin 32, GL_ALL_BARRIER_BITS.testBit i = true)
    ∧ ∃ pre, (WriteLeafNodesPass.new link vctScene executionType).operations
          = pre ++ [Operation.DrawIndirectOp GL_POINTS 0,
                    Operation.MemoryBarrierOp GL_ALL_BARRIER_BITS]
        ∧ pre.all (fun o => !o.isDraw && !o.isMemoryBarrier) = true :=
  ⟨rfl, by decide, by decide,
    ((WriteLeafNodesPass.new link vctScene executionType).operations.dropLast).dropLast,
    rfl, rfl⟩

/-- C2: the startup operations of a constructed `WriteLeafNodesPass` are the bind of
the fragment list's indirect command buffer to `GL_DRAW_INDIRECT_BUFFER`, then
uniform/image bindings only, then one indirect `GL_POINTS` draw at offset 0 as the
last startup operation; that draw is the only draw of the pass, and the buffer bind
and the uniform/image bindings before it are all the bindings of the pass. -/
theorem WriteLeafNodesPass_draw_sized_by_fragment_list
    (link : List (String × GLenum) → List ShaderInput) (vctScene : VCTscene)
    (executionType : Nat) :
    ∃ binds, (WriteLeafNodesPass.new link vctScene executionType).startupOperations
          = Operation.BindBuffer GL_DRAW_INDIRECT_BUFFER
              vctScene.voxelFragList.fragListIndCmdBuf.bufferHandle
            :: binds ++ [Operation.DrawIndirectOp GL_POINTS 0]
        ∧ binds.all Operation.isShaderBinding = true
        ∧ (WriteLeafNodesPass.new link vctScene executionType).startupOperations.getLast?
            = some (Operation.DrawIndirectOp GL_POINTS 0)
        ∧ (WriteLeafNodesPass.new link vctScene executionType).operations.filter
              Operation.isDraw
            = [Operation.DrawIndirectOp GL_POINTS 0]
        ∧ (WriteLeafNodesPass.new link vctScene executionType).operations.filter
              Operation.isBinding
            = Operation.BindBuffer GL_DRAW_INDIRECT_BUFFER
                vctScene.voxelFragList.fragListIndCmdBuf.bufferHandle :: binds :=
  ⟨((WriteLeafNodesPass.new link vctScene executionType).startupOperations.tail).dropLast,
    rfl, rfl, rfl, rfl, rfl⟩

/-! ## glmMatFromAiMat -/

/-- C5: `glmMatFromAiMat M` is the matrix `M` stored by columns: the element at
column `j`, row `i` of the result is the element at row `i`, column `j` of `M`, so
the `k`-th column of the result is `(a, b, c, d)k`; the conversion is injective and
maps the identity to the identity. -/
theorem glmMatFromAiMat_same_matrix_column_major {F : Type} [Zero F] [One F] :
    (∀ (M : aiMatrix4x4 F) (i j : Fin 4), ((glmMatFromAiMat M).col j).get i = M.get i j)
    ∧ (∀ M : aiMatrix4x4 F,
        (glmMatFromAiMat M).col 0 = ⟨M.a1, M.b1, M.c1, M.d1⟩
        ∧ (glmMatFromAiMat M).col 1 = ⟨M.a2, M.b2, M.c2, M.d2⟩
        ∧ (glmMatFromAiMat M).col 2 = ⟨M.a3, M.b3, M.c3, M.d3⟩
        ∧ (glmMatFromAiMat M).col 3 = ⟨M.a4, M.b4, M.c4, M.d4⟩)
    ∧ Function.Injective (glmMatFromAiMat : aiMatrix4x4 F → mat4 F)
    ∧ glmMatFromAiMat (aiMatrix4x4.identity : aiMatrix4x4 F) = mat4.identity := by
  refine ⟨?_, fun M => ⟨rfl, rfl, rfl, rfl⟩, ?_, rfl⟩
  · intro M i j
    fin_cases i <;> fin_cases j <;> rfl
  · intro A B h
    cases A
    cases B
    simp only [glmMatFromAiMat, mat4.ofScalars, mat4.mk.injEq, vec4.mk.injEq] at h
    obtain ⟨⟨h1, h2, h3, h4⟩, ⟨h5, h6, h7, h8⟩, ⟨h9, h10, h11, h12⟩, h13, h14, h15, h16⟩ := h
    subst h1 h2 h3 h4 h5 h6 h7 h8 h9 h10 h11 h12 h13 h14 h15 h16
    rfl

/-! ## loadMaterialProperties -/

section Materials

variable {F : Type}

theorem addValue_color (m : Material F) (o : Option (aiColor3D F)) (n : String) (t : GLenum)
    (g : aiColor3D F → MaterialValue F) :
    (match o with
      | some c => m.addValue n t (g c)
      | none => m) = ⟨m.values ++ (toEntry (n, t, o.map g)).toList⟩ := by
  cases o <;> simp [Material.addValue, toEntry]

theorem addValue_int (m : Material F) (o : Option Int) (n : String) (t : GLenum)
    (g : Int → MaterialValue F) :
    (match o with
      | some c => m.addValue n t (g c)
      | none => m) = ⟨m.values ++ (toEntry (n, t, o.map g)).toList⟩ := by
  cases o <;> simp [Material.addValue, toEntry]

theorem addValue_float (m : Material F) (o : Option F) (n : String) (t : GLenum)
    (g : F → MaterialValue F) :
    (match o with
      | some c => m.addValue n t (g c)
      | none => m) = ⟨m.values ++ (toEntry (n, t, o.map g)).toList⟩ := by
  cases o <;> simp [Material.addValue, toEntry]

theorem filterMap_cons_toList {α β : Type} (f : α → Option β) (x : α) (xs : List α) :
    (x :: xs).filterMap f = (f x).toList ++ xs.filterMap f := by
  cases h : f x <;> simp [List.filterMap_cons, h]

theorem loadMaterialProperties_values (koreMat : Material F) (aiMat : aiMaterial F) :
    (loadMaterialProperties koreMat aiMat).values = koreMat.values ++ expectedEntries aiMat := by
  unfold loadMaterialProperties
  simp -zeta only [addValue_color, addValue_int, addValue_float]
  simp only [expectedEntries, supportedProperties, filterMap_cons_toList, List.filterMap_nil,
    List.append_assoc, List.append_nil]
  rfl

theorem entry_names_sublist (tbl : List (String × GLenum × Option (MaterialValue F))) :
    ((tbl.filterMap toEntry).map MaterialEntry.name).Sublist (tbl.map Prod.fst) := by
  induction tbl with
  | nil => simp
  | cons row rows ih =>
    obtain ⟨n, t, o⟩ := row
    cases o with
    | none => simpa [toEntry] using ih.trans (List.sublist_cons_self _ _)
    | some d => simpa [toEntry] using ih

theorem supportedProperties_names (aiMat : aiMaterial F) :
    (supportedProperties aiMat).map Prod.fst = supportedNames := rfl

/-- C6: `loadMaterialProperties` appends to the kore material exactly the triples of
the thirteen-row table (six colours as `GL_FLOAT_VEC3` with the same r, g, b, two
`GL_INT` flags, five `GL_FLOAT` values) for the rows whose property the Assimp
material has, none for a property it lacks, in table order; the names added are a
subsequence of the thirteen names, so each is added at most once. -/
theorem loadMaterialProperties_adds_supported_triples (koreMat : Material F)
    (aiMat : aiMaterial F) :
    (loadMaterialProperties koreMat aiMat).values = koreMat.values ++ expectedEntries aiMat
    ∧ (supportedProperties aiMat).length = 13
    ∧ ((expectedEntries aiMat).map MaterialEntry.name).Sublist supportedNames
    ∧ ((expectedEntries aiMat).map MaterialEntry.name).Nodup := by
  have hsub : ((expectedEntries aiMat).map MaterialEntry.name).Sublist supportedNames := by
    rw [← supportedProperties_names aiMat]
    exact entry_names_sublist _
  exact ⟨loadMaterialProperties_values koreMat aiMat, rfl, hsub,
    hsub.nodup (by decide)⟩

end Materials

/-! ## loadScene on an unreadable file -/

/-- C7: when `ReadFile` yields null for the scene path, `loadScene` leaves the store
of scene nodes as it was (in particular the children of `parent`), registers no
mesh, camera or light, and returns with the node, camera and mesh counters at 0. -/
theorem loadScene_unreadable_file_changes_nothing {F : Type} [Zero F] [One F]
    (ops : FloatOps F) (imp : Importer F) (ml : MeshLoader F) (szScenePath : String)
    (parent : Nat) (st : LoaderState F)
    (h : imp.ReadFile szScenePath readFlags = none) :
    (loadScene ops imp ml szScenePath parent st).store = st.store
    ∧ (loadScene ops imp ml szScenePath parent st).storeSize = st.storeSize
    ∧ ((loadScene ops imp ml szScenePath parent st).store parent)._children
        = (st.store parent)._children
    ∧ (loadScene ops imp ml szScenePath parent st).meshes = st.meshes
    ∧ (loadScene ops imp ml szScenePath parent st).cameras = st.cameras
    ∧ (loadScene ops imp ml szScenePath parent st).lights = st.lights
    ∧ (loadScene ops imp ml szScenePath parent st)._nodecount = 0
    ∧ (loadScene ops imp ml szScenePath parent st)._cameracount = 0
    ∧ (loadScene ops imp ml szScenePath parent st)._meshcount = 0 := by
  simp [loadScene, loadRessources, h, LoaderState.write]

/-- The statement of C7 at a path the importer cannot read. -/
theorem loadScene_unreadable_file_changes_nothing_witness :
    demoImporter.ReadFile "missing.dae" readFlags = none
    ∧ (loadScene demoOps demoImporter demoMeshLoader "missing.dae" 0 demoState).meshes = []
    ∧ (loadScene demoOps demoImporter demoMeshLoader "missing.dae" 0 demoState)._nodecount = 0
    ∧ (loadScene demoOps demoImporter demoMeshLoader "missing.dae" 0 demoState)._meshcount = 0 :=
  have h := loadScene_unreadable_file_changes_nothing demoOps demoImporter demoMeshLoader
    "missing.dae" 0 demoState rfl
  ⟨rfl, h.2.2.2.1, h.2.2.2.2.2.2.1, h.2.2.2.2.2.2.2.2⟩

/-! ## loadSceneGraph on a node with two meshes -/

/-- C8 (the code at the failing input): for a root node with the meshes 0 and 1,
the duplicate node (address 2) holds the mesh component of mesh 1 and no material,
while the node itself (address 1) holds the materials of both meshes. -/
theorem loadScene_two_meshes_material_on_wrong_node :
    ((loadScene demoOps demoImporter demoMeshLoader "two.dae" 0 demoState).store 2)._components
      = [SceneNodeComponent.mesh ⟨some ⟨"1", 1⟩⟩]
    ∧ (((loadScene demoOps demoImporter demoMeshLoader "two.dae" 0 demoState).store
          2)._components.filter SceneNodeComponent.isMaterial).length = 0
    ∧ ((loadScene demoOps demoImporter demoMeshLoader "two.dae" 0 demoState).store 1)._components
      = [SceneNodeComponent.mesh ⟨some ⟨"0", 0⟩⟩,
         SceneNodeComponent.material (loadMaterialProperties Material.new demoMaterial0),
         SceneNodeComponent.material (loadMaterialProperties Material.new demoMaterial1)] := by
  decide

/-- C9 (the code at the failing input): for a root node with two meshes, `loadScene`
creates two scene nodes (addresses 1 and 2) and appends both to the children of
`parent`, and the log message reports 1 node. -/
theorem loadScene_two_meshes_reports_one_node :
    (loadScene demoOps demoImporter demoMeshLoader "two.dae" 0 demoState).storeSize
      = demoState.storeSize + 2
    ∧ ((loadScene demoOps demoImporter demoMeshLoader "two.dae" 0 demoState).store 0)._children
      = [1, 2]
    ∧ (loadScene demoOps demoImporter demoMeshLoader "two.dae" 0 demoState)._nodecount = 1
    ∧ (loadScene demoOps demoImporter demoMeshLoader "two.dae" 0 demoState).log
      = [LogEntry.debugLoaded "two.dae" 2 0 1] := by
  decide

/-! ## loadSceneGraph on trees with at most one mesh per node -/

section SceneGraph

variable {F : Type}

theorem componentsOnly_refl (node : Nat) (st : LoaderState F) : ComponentsOnly node st st :=
  ⟨rfl, (st.store node)._components, by simp⟩

theorem componentsOnly_trans {node : Nat} {a b c : LoaderState F}
    (h1 : ComponentsOnly node a b) (h2 : ComponentsOnly node b c) : ComponentsOnly node a c := by
  obtain ⟨hs1, cs1, e1⟩ := h1
  obtain ⟨hs2, cs2, e2⟩ := h2
  refine ⟨hs2.trans hs1, cs2, ?_⟩
  rw [e2, e1]
  simp

theorem componentsOnly_addComponent (node : Nat) (st : LoaderState F)
    (c : SceneNodeComponent F) : ComponentsOnly node st (st.addComponent node c) :=
  ⟨rfl, _, rfl⟩

theorem componentsOnly_write (node : Nat) (st : LoaderState F) (e : LogEntry) :
    ComponentsOnly node st (st.write e) :=
  componentsOnly_refl node st

theorem componentsOnly_getLightName (node : Nat) (l : aiLight F) (i : Nat)
    (st : LoaderState F) : ComponentsOnly node st (getLightName l i st).2 := by
  unfold getLightName
  split
  · exact componentsOnly_refl node st
  · exact componentsOnly_write node st _

theorem componentsOnly_getCameraName (node : Nat) (l : aiCamera F) (i : Nat)
    (st : LoaderState F) : ComponentsOnly node st (getCameraName l i st).2 := by
  unfold getCameraName
  split
  · exact componentsOnly_refl node st
  · exact componentsOnly_write node st _

theorem componentsOnly_loadLight (aiscene : aiScene F) (path : String) (node : Nat)
    (st : LoaderState F) : ComponentsOnly node st (loadLight aiscene path node st) := by
  unfold loadLight
  split
  · dsimp only
    split
    · exact componentsOnly_trans (componentsOnly_getLightName node _ _ st)
        (componentsOnly_addComponent _ _ _)
    · exact componentsOnly_getLightName node _ _ st
  · exact componentsOnly_refl node st

theorem componentsOnly_loadCamera (aiscene : aiScene F) (path : String) (node : Nat)
    (st : LoaderState F) : ComponentsOnly node st (loadCamera aiscene path node st) := by
  unfold loadCamera
  split
  · dsimp only
    split
    · exact componentsOnly_trans (componentsOnly_getCameraName node _ _ st)
        (componentsOnly_addComponent _ _ _)
    · exact componentsOnly_getCameraName node _ _ st
  · exact componentsOnly_refl node st

mutual
theorem mirrors_congr (store store2 : Nat → SceneNode F) (lo hi lo2 hi2 : Nat)
    (hagree : ∀ i, lo ≤ i → i < hi → store2 i = store i) (hlo : lo2 ≤ lo) (hhi : hi ≤ hi2) :
    ∀ (ainode : aiNode F) (node parentNode : Nat),
      Mirrors store lo hi ainode node parentNode → Mirrors store2 lo2 hi2 ainode node parentNode
  | ⟨mName, mTransformation, mMeshes, mChildren⟩, node, parentNode, h => by
    simp only [Mirrors] at h ⊢
    obtain ⟨h1, h2, h3, h4, h5, h6⟩ := h
    rw [hagree node h1 h2]
    exact ⟨hlo.trans h1, h2.trans_le hhi, h3, h4, h5,
      mirrorsChildren_congr store store2 lo hi lo2 hi2 hagree hlo hhi mChildren _ node h6⟩
theorem mirrorsChildren_congr (store store2 : Nat → SceneNode F) (lo hi lo2 hi2 : Nat)
    (hagree : ∀ i, lo ≤ i → i < hi → store2 i = store i) (hlo : lo2 ≤ lo) (hhi : hi ≤ hi2) :
    ∀ (cs : List (aiNode F)) (ids : List Nat) (p : Nat),
      MirrorsChildren store lo hi cs ids p → MirrorsChildren store2 lo2 hi2 cs ids p
  | [], [], _, _ => by simp only [MirrorsChildren]
  | [], _ :: _, _, h => by simp only [MirrorsChildren] at h
  | _ :: _, [], _, h => by simp only [MirrorsChildren] at h
  | c :: cs, i :: ids, p, h => by
    simp only [MirrorsChildren] at h ⊢
    exact ⟨mirrors_congr store store2 lo hi lo2 hi2 hagree hlo hhi c i p h.1,
      mirrorsChildren_congr store store2 lo hi lo2 hi2 hagree hlo hhi cs ids p h.2⟩
end

variable [Zero F] [One F]

theorem componentsOnly_loadMeshes (ml : MeshLoader F) (aiscene : aiScene F) (path : String)
    (ainode : aiNode F) (parentNode node : Nat) (st : LoaderState F)
    (h1 : ainode.mMeshes.length ≤ 1) :
    ComponentsOnly node st (loadMeshes ml aiscene path ainode parentNode node st) := by
  unfold loadMeshes
  split
  · exact componentsOnly_refl node st
  · rename_i m further hm
    have hf : further = [] := by
      rw [hm] at h1
      exact List.length_eq_zero.mp (by simpa using h1)
    subst hf
    exact componentsOnly_trans (componentsOnly_addComponent node st _)
      (componentsOnly_addComponent node _ _)

theorem componentsOnly_loadSceneGraphNode (ml : MeshLoader F) (aiscene : aiScene F)
    (path : String) (ainode : aiNode F) (parentNode : Nat) (st : LoaderState F)
    (h1 : ainode.mMeshes.length ≤ 1) :
    ComponentsOnly st.storeSize (createNode ainode parentNode st)
      (loadSceneGraphNode ml aiscene path ainode parentNode st) :=
  componentsOnly_trans
    (componentsOnly_trans (componentsOnly_loadLight aiscene path _ _)
      (componentsOnly_loadCamera aiscene path _ _))
    (componentsOnly_loadMeshes ml aiscene path ainode parentNode _ _ h1)

theorem loadSceneGraphNode_spec (ml : MeshLoader F) (aiscene : aiScene F) (path : String)
    (ainode : aiNode F) (parentNode : Nat) (st : LoaderState F)
    (h1 : ainode.mMeshes.length ≤ 1) (hp : parentNode < st.storeSize) :
    (loadSceneGraphNode ml aiscene path ainode parentNode st).storeSize = st.storeSize + 1 ∧
    (∀ i, i ≠ parentNode → i ≠ st.storeSize →
      (loadSceneGraphNode ml aiscene path ainode parentNode st).store i = st.store i) ∧
    (loadSceneGraphNode ml aiscene path ainode parentNode st).store parentNode =
      { st.store parentNode with
        _children := (st.store parentNode)._children ++ [st.storeSize] } ∧
    ((loadSceneGraphNode ml aiscene path ainode parentNode st).store st.storeSize)._name
      = ainode.mName ∧
    ((loadSceneGraphNode ml aiscene path ainode parentNode st).store
      st.storeSize)._transform.localMat = glmMatFromAiMat ainode.mTransformation ∧
    ((loadSceneGraphNode ml aiscene path ainode parentNode st).store st.storeSize)._parent
      = some parentNode ∧
    ((loadSceneGraphNode ml aiscene path ainode parentNode st).store st.storeSize)._children
      = [] := by
  have hne : parentNode ≠ st.storeSize := Nat.ne_of_lt hp
  obtain ⟨hs, cs, e⟩ := componentsOnly_loadSceneGraphNode ml aiscene path ainode parentNode st h1
  rw [hs, e]
  simp [createNode, LoaderState.newSceneNode, LoaderState.modifyNode, Function.update_apply,
    SceneNode.new, Transform.setLocal, hne, hne.symm]
  intro i h2 h3
  simp [h2, h3]


mutual
theorem loadSceneGraph_inv (ml : MeshLoader F) (aiscene : aiScene F) (path : String) :
    ∀ (ainode : aiNode F) (parentNode : Nat) (st : LoaderState F),
      parentNode < st.storeSize → ainode.atMostOneMesh = true →
      st.storeSize < (loadSceneGraph ml aiscene path ainode parentNode st).storeSize ∧
      (∀ i, i < st.storeSize → i ≠ parentNode →
        (loadSceneGraph ml aiscene path ainode parentNode st).store i = st.store i) ∧
      (loadSceneGraph ml aiscene path ainode parentNode st).store parentNode =
        { st.store parentNode with
          _children := (st.store parentNode)._children ++ [st.storeSize] } ∧
      Mirrors (loadSceneGraph ml aiscene path ainode parentNode st).store st.storeSize
        (loadSceneGraph ml aiscene path ainode parentNode st).storeSize
        ainode st.storeSize parentNode
  | ⟨mName, mTransformation, mMeshes, mChildren⟩, parentNode, st, hp, h1 => by
    simp only [aiNode.atMostOneMesh, Bool.and_eq_true, decide_eq_true_eq] at h1
    obtain ⟨hm, hc⟩ := h1
    obtain ⟨n1, n2, n3, n4, n5, n6, n7⟩ := loadSceneGraphNode_spec ml aiscene path
      ⟨mName, mTransformation, mMeshes, mChildren⟩ parentNode st hm hp
    have hne : parentNode ≠ st.storeSize := Nat.ne_of_lt hp
    obtain ⟨c1, c2, ids, c3, c4⟩ := loadChildren_inv ml aiscene path mChildren st.storeSize
      (loadSceneGraphNode ml aiscene path ⟨mName, mTransformation, mMeshes, mChildren⟩
        parentNode st) (by omega) hc
    simp only [loadSceneGraph]
    rw [n1] at c1 c2 c4
    refine ⟨by omega, ?_, ?_, ?_⟩
    · intro i hi hip
      rw [c2 i (by omega) (by omega), n2 i hip (by omega)]
    · rw [c2 parentNode (by omega) hne, n3]
    · simp only [Mirrors]
      rw [c3]
      refine ⟨le_refl _, by omega, n4, n5, n6, ?_⟩
      simp only [n7, List.nil_append]
      exact mirrorsChildren_congr _ _ _ _ _ _ (fun _ _ _ => rfl) (by omega) (le_refl _) _ _ _ c4
theorem loadChildren_inv (ml : MeshLoader F) (aiscene : aiScene F) (path : String) :
    ∀ (cs : List (aiNode F)) (node : Nat) (st : LoaderState F),
      node < st.storeSize → atMostOneMeshList cs = true →
      st.storeSize ≤ (loadChildren ml aiscene path cs node st).storeSize ∧
      (∀ i, i < st.storeSize → i ≠ node →
        (loadChildren ml aiscene path cs node st).store i = st.store i) ∧
      ∃ ids, (loadChildren ml aiscene path cs node st).store node =
          { st.store node with _children := (st.store node)._children ++ ids } ∧
        MirrorsChildren (loadChildren ml aiscene path cs node st).store st.storeSize
          (loadChildren ml aiscene path cs node st).storeSize cs ids node
  | [], node, st, _, _ => by
    refine ⟨?_, ?_, [], ?_, ?_⟩ <;> simp [loadChildren, MirrorsChildren]
  | c :: cs, node, st, hp, h1 => by
    simp only [atMostOneMeshList, Bool.and_eq_true] at h1
    obtain ⟨a1, a2, a3, a4⟩ := loadSceneGraph_inv ml aiscene path c node st hp h1.1
    obtain ⟨b1, b2, ids, b3, b4⟩ := loadChildren_inv ml aiscene path cs node
      (loadSceneGraph ml aiscene path c node st) (by omega) h1.2
    simp only [loadChildren]
    refine ⟨by omega, ?_, st.storeSize :: ids, ?_, ?_⟩
    · intro i hi hin
      rw [b2 i (by omega) hin, a2 i hi hin]
    · rw [b3, a3]
      simp
    · simp only [MirrorsChildren]
      refine ⟨?_, ?_⟩
      · exact mirrors_congr _ _ _ _ _ _
          (fun i hlo hhi => b2 i hhi (by omega)) (le_refl _) b1 _ _ _ a4
      · exact mirrorsChildren_congr _ _ _ _ _ _ (fun _ _ _ => rfl) (by omega) (le_refl _) _ _ _ b4
end


/-- C4: for an Assimp tree in which every node references at most one mesh, and a
valid parent pointer, `loadSceneGraph` appends exactly one child to `parentNode`,
the freshly created node at address `st.storeSize`, and the subtree at that
address mirrors the Assimp tree: names, local transforms (`glmMatFromAiMat`),
children in order, and each created node's `_parent` is the node that lists it. -/
theorem loadSceneGraph_mirrors_assimp_tree (ml : MeshLoader F) (aiscene : aiScene F)
    (szScenePath : String) (ainode : aiNode F) (parentNode : Nat) (st : LoaderState F)
    (hparent : parentNode < st.storeSize) (hmesh : ainode.atMostOneMesh = true) :
    ((loadSceneGraph ml aiscene szScenePath ainode parentNode st).store parentNode)._children
      = (st.store parentNode)._children ++ [st.storeSize]
    ∧ Mirrors (loadSceneGraph ml aiscene szScenePath ainode parentNode st).store
        st.storeSize (loadSceneGraph ml aiscene szScenePath ainode parentNode st).storeSize
        ainode st.storeSize parentNode := by
  obtain ⟨_, _, h3, h4⟩ :=
    loadSceneGraph_inv ml aiscene szScenePath ainode parentNode st hparent hmesh
  exact ⟨by rw [h3], h4⟩

/-- The statement of C4 at a tree of three nodes below the node at address 0. -/
theorem loadSceneGraph_mirrors_assimp_tree_witness :
    (0 < demoState.storeSize ∧ smallTree.atMostOneMesh = true)
    ∧ ((loadSceneGraph demoMeshLoader smallScene "small.dae" smallTree 0 demoState).store
          0)._children = (demoState.store 0)._children ++ [demoState.storeSize]
    ∧ Mirrors (loadSceneGraph demoMeshLoader smallScene "small.dae" smallTree 0 demoState).store
        demoState.storeSize
        (loadSceneGraph demoMeshLoader smallScene "small.dae" smallTree 0 demoState).storeSize
        smallTree demoState.storeSize 0 :=
  ⟨⟨by decide, by decide⟩,
    loadSceneGraph_mirrors_assimp_tree demoMeshLoader smallScene "small.dae" smallTree 0
      demoState (by decide) (by decide)⟩

end SceneGraph

end VCT
